import Mathlib

/-!
# go-dump-s3: a shallow embedding of `main.go`

The program reads nine environment values, validates them, and then, for every
configured database, dumps it with `mysqldump` into a scoped temporary
directory, uploads the dump to S3 and posts the outcome to a Discord webhook.

The embedding is a pure, executable model: every function of `main.go` becomes
a Lean function that returns the chronological list of effects it performs
(`Event`) together with the resulting filesystem.  The outcomes of the external
collaborators (clock, temp-dir creation, `mysqldump`, file write, file open,
`PutObject`, webhook reply, AWS session creation) are inputs of the model
(`Outcome`, `Oracle`), so that theorems quantify over all of them.
-/

namespace GoDumpS3

/-! ## Strings (Go standard-library helpers used by the program) -/

/-- Go `strings.TrimSuffix(s, suffix)`: `s` without the trailing `suffix` when
`s` ends with it, `s` unchanged otherwise. -/
def trimSuffix (s suffix : String) : String :=
  if suffix.data.isSuffixOf s.data then
    String.mk (s.data.take (s.data.length - suffix.data.length))
  else s

/-- Worker of `stringsSplit`: `cur` holds the characters of the current piece in
reverse order. -/
def splitAux (sep : Char) : List Char → List Char → List String
  | [], cur => [String.mk cur.reverse]
  | c :: cs, cur =>
    if c = sep then String.mk cur.reverse :: splitAux sep cs []
    else splitAux sep cs (c :: cur)

/-- Go `strings.Split(s, sep)` for a one-character separator (the program calls
it with `","`): the pieces of `s` between consecutive separators.  There is
always one more piece than there are separators in `s`. -/
def stringsSplit (s : String) (sep : Char) : List String :=
  splitAux sep s.data []

/-! ## Time and `generateBackupFileName` -/

/-- Civil fields of a `time.Time`, as `Time.Format` sees them. Years before
year 0 are not represented. -/
structure Time where
  year : Nat
  month : Nat
  day : Nat
  hour : Nat
  minute : Nat
  second : Nat
  deriving DecidableEq, Repr

/-- Loop of `appendInt`: emit decimal digits, least significant first, while
the number is non-zero or the field width is not yet filled. -/
def padDigits : Nat → Nat → Nat → List Char → List Char
  | 0, _, _, acc => acc
  | fuel + 1, width, u, acc =>
    if u = 0 ∧ width = 0 then acc
    else padDigits fuel (width - 1) (u / 10) (Nat.digitChar (u % 10) :: acc)

/-- Go `time.appendInt(b, x, width)` for `x ≥ 0`: the decimal form of `x`,
padded with leading zeros to at least `width` digits (and at least one). -/
def appendInt (x width : Nat) : List Char :=
  padDigits (x + width + 1) (max width 1) x []

/-- The call `t.Format("20060102-150405")`: four-digit year, two-digit month and day,
a hyphen, two-digit hour (24h), minute and second. -/
def formatTimestamp (t : Time) : String :=
  String.mk (appendInt t.year 4 ++ appendInt t.month 2 ++ appendInt t.day 2 ++ [ '-' ] ++
    appendInt t.hour 2 ++ appendInt t.minute 2 ++ appendInt t.second 2)

/-- Source `generateBackupFileName`, with the reading of the clock (`time.Now()`)
passed in as `now`: `fmt.Sprintf("%s-%s.sql", dbName, timestamp)`. -/
def generateBackupFileName (dbName : String) (now : Time) : String :=
  dbName ++ "-" ++ formatTimestamp now ++ ".sql"

/-- Source `s3Key` of `uploadToS3` (lines 114-117): the file name, or
`TrimSuffix(prefix, "/") + "/" + fileName` when the prefix is not empty. -/
def s3Key (s3Prefix fileName : String) : String :=
  if s3Prefix ≠ "" then trimSuffix s3Prefix "/" ++ "/" ++ fileName else fileName

/-! ## Paths and the filesystem -/

/-- An absolute, cleaned path: its components below the root. -/
abbrev Path := List String

/-- File contents. -/
abbrev Bytes := List Nat

/-- One step of the lexical cleaning done by `filepath.Clean` on a rooted path:
empty and `.` elements are dropped, `..` removes the last component (and is
dropped at the root), any other element is appended. -/
def cleanStep (acc : Path) (c : String) : Path :=
  if c = "" ∨ c = "." then acc
  else if c = ".." then acc.dropLast
  else acc ++ [c]

/-- Go `filepath.Join(dir, name)` on Unix for an absolute, cleaned `dir`: the
elements of `name` are appended and the result is cleaned. -/
def filepathJoin (dir : Path) (name : String) : Path :=
  (stringsSplit name '/').foldl cleanStep dir

/-- What a path holds. -/
inductive Node where
  | dir
  | file (data : Bytes)
  deriving DecidableEq, Repr

/-- The filesystem: what each path holds, if it exists. -/
abbrev FS := Path → Option Node

/-- The filesystem with `p` set to `n`. -/
def FS.set (fs : FS) (p : Path) (n : Node) : FS :=
  fun q => if q = p then some n else fs q

/-- Go `os.RemoveAll(dir)`: `dir` and everything below it is gone. -/
def FS.removeAll (fs : FS) (dir : Path) : FS :=
  fun q => if dir.isPrefixOf q then none else fs q

/-- The contents of the regular file at `p`, if there is one. -/
def FS.read (fs : FS) (p : Path) : Option Bytes :=
  match fs p with
  | some (Node.file data) => some data
  | _ => none

/-! ## Effects and the outcomes of the external collaborators -/

/-- The reply of the webhook to a post. -/
structure Response where
  statusCode : Nat
  status : String
  deriving DecidableEq, Repr

/-- The effects of the program, in the order it performs them.  `backupCall`
and `uploadCall` record the entry into `backupAndUploadDatabase` and
`uploadToS3`; the others are calls out of the program. -/
inductive Event where
  | stdout (text : String)
  | newSession (region : String)
  | backupCall (dbName fileName : String)
  | tempDir (dir pattern : String)
  | runCmd (name : String) (args : List String)
  | writeFile (path : Path) (data : Bytes) (perm : Nat)
  | uploadCall (fileName : String) (filePath : Path)
  | openFile (path : Path)
  | putObject (bucket key : String) (body : Option Bytes)
  | closeFile (path : Path)
  | removeAll (path : Path)
  | postForm (url content : String)
  | closeBody
  deriving DecidableEq, Repr

/-- Outcome of `os.WriteFile`: success, or an error that may leave a truncated
or partial file behind (`residue`; `none` when the file could not be opened). -/
inductive WriteResult where
  | ok
  | fail (err : String) (residue : Option Bytes)
  deriving DecidableEq, Repr

/-- What the outside world answers during the processing of one database.
An error is represented by its `Error()` text. -/
structure Outcome where
  /-- The clock read by `generateBackupFileName`. -/
  now : Time
  /-- Result of `ioutil.TempDir("", "backup")`: the fresh directory, or an error. -/
  tempDir : Except String Path
  /-- Result of `cmd.Run()`: the captured standard output, or an error. -/
  dump : Except String Bytes
  /-- Result of `os.WriteFile`. -/
  write : WriteResult
  /-- Error of `os.Open`, if any. -/
  openErr : Option String
  /-- Error of `svc.PutObject`, if any. -/
  putErr : Option String
  /-- Result of `http.PostForm`: the reply, or a transport error. -/
  post : Except String Response

/-- The outside world for a whole run. -/
structure Oracle where
  /-- Error of `session.NewSession`, if any. -/
  session : Option String
  /-- Webhook result for the notification of a session failure. -/
  sessionPost : Except String Response
  /-- Outcomes for the database at each position of the list. -/
  perDb : Nat → Outcome

/-- The nine environment values read at start-up. -/
structure Env where
  DATABASES : String
  S3_BUCKET : String
  S3_REGION : String
  S3_PREFIX : String
  DISCORD_URL : String
  MYSQL_USER : String
  MYSQL_PASSWORD : String
  MYSQL_HOST : String
  MYSQL_PORT : String
  deriving DecidableEq, Repr

/-- The package-level variables of `main.go` (lines 20-30). -/
structure Globals where
  databases : List String
  bucketName : String
  region : String
  s3Prefix : String
  discordURL : String
  mysqlUser : String
  mysqlPass : String
  mysqlHost : String
  mysqlPort : String
  deriving DecidableEq, Repr

/-- Initialisation of the package-level variables from the environment. -/
def loadGlobals (env : Env) : Globals where
  databases := stringsSplit env.DATABASES ','
  bucketName := env.S3_BUCKET
  region := env.S3_REGION
  s3Prefix := env.S3_PREFIX
  discordURL := env.DISCORD_URL
  mysqlUser := env.MYSQL_USER
  mysqlPass := env.MYSQL_PASSWORD
  mysqlHost := env.MYSQL_HOST
  mysqlPort := env.MYSQL_PORT

/-! ## The program -/

/-- The content built by `sendDiscordNotification` (lines 132-135). -/
def notificationContent (message : String) (err : Option String) : String :=
  match err with
  | some e => message ++ ": " ++ e
  | none => message

/-- Line printed when the webhook answers 204. -/
def sentLine : String := "Discord notification sent successfully.\n"

/-- Line printed when the webhook answers a status other than 200 and 204. -/
def statusFailureLine (status : String) : String :=
  "Failed to send Discord notification, status: " ++ status ++ "\n"

/-- Line printed when the post itself fails. -/
def transportFailureLine (err : String) : String :=
  "Failed to send Discord notification: " ++ err ++ "\n"

/-- Source `sendDiscordNotification`; `reply` is the result of `http.PostForm`. -/
def sendDiscordNotification (g : Globals) (message : String) (err : Option String)
    (fileName : String) (reply : Except String Response) : List Event :=
  let _ := fileName
  let content := notificationContent message err
  let posted := [Event.postForm g.discordURL content]
  match reply with
  | .error e => posted ++ [Event.stdout (transportFailureLine e)]
  | .ok resp =>
    (if resp.statusCode = 204 then posted ++ [Event.stdout sentLine]
     else if resp.statusCode ≠ 200 then posted ++ [Event.stdout (statusFailureLine resp.status)]
     else posted) ++ [Event.closeBody]

/-- Source `uploadToS3`: returns the error (if any) and the effects. -/
def uploadToS3 (g : Globals) (fileName : String) (filePath : Path) (o : Outcome) (fs : FS) :
    Option String × List Event :=
  let entry := [Event.uploadCall fileName filePath, Event.openFile filePath]
  match o.openErr with
  | some e => (some ("failed to open file: " ++ e), entry)
  | none =>
    let put := Event.putObject g.bucketName (s3Key g.s3Prefix fileName) (fs.read filePath)
    match o.putErr with
    | some e => (some ("failed to upload file to S3: " ++ e), entry ++ [put, Event.closeFile filePath])
    | none => (none, entry ++ [put, Event.closeFile filePath])

/-- Wrapping prefix of a temp-directory failure. -/
def tempDirPrefix : String := "failed to create temp directory: "
/-- Wrapping prefix of a dump failure. -/
def dumpPrefix : String := "failed to execute mysqldump: "
/-- Wrapping prefix of a file-write failure. -/
def writePrefix : String := "failed to write backup file: "
/-- Wrapping prefix of an upload failure. -/
def uploadPrefix : String := "failed to upload backup to S3: "

/-- The arguments of the `mysqldump` command (lines 77-82). -/
def dumpArgs (g : Globals) (dbName : String) : List String :=
  ["-u", g.mysqlUser, "-p" ++ g.mysqlPass, "-h", g.mysqlHost, "-P", g.mysqlPort, dbName]

/-- The result of `backupAndUploadDatabase`: the returned error (if any), the
effects, and the filesystem on return. -/
structure BackupResult where
  err : Option String
  events : List Event
  fs : FS

/-- Lines 74-103 of `backupAndUploadDatabase`: what runs once the temporary
directory exists, before the deferred `os.RemoveAll`. -/
def backupInTempDir (g : Globals) (dbName fileName : String) (tempDir : Path) (o : Outcome)
    (fs : FS) : BackupResult :=
  let filePath := filepathJoin tempDir fileName
  let run := [Event.runCmd "mysqldump" (dumpArgs g dbName)]
  match o.dump with
  | .error e => ⟨some (dumpPrefix ++ e), run, fs⟩
  | .ok out =>
    let wr := run ++ [Event.writeFile filePath out 0o644]
    match o.write with
    | .fail e residue =>
      ⟨some (writePrefix ++ e), wr,
        match residue with
        | some part => fs.set filePath (Node.file part)
        | none => fs⟩
    | .ok =>
      let fs1 := fs.set filePath (Node.file out)
      match uploadToS3 g fileName filePath o fs1 with
      | (some e, evs) => ⟨some (uploadPrefix ++ e), wr ++ evs, fs1⟩
      | (none, evs) => ⟨none, wr ++ evs, fs1⟩

/-- Source `backupAndUploadDatabase`. -/
def backupAndUploadDatabase (g : Globals) (dbName fileName : String) (o : Outcome) (fs : FS) :
    BackupResult :=
  let entry := [Event.backupCall dbName fileName, Event.tempDir "" "backup"]
  match o.tempDir with
  | .error e => ⟨some (tempDirPrefix ++ e), entry, fs⟩
  | .ok tempDir =>
    let r := backupInTempDir g dbName fileName tempDir o (fs.set tempDir Node.dir)
    ⟨r.err, entry ++ r.events ++ [Event.removeAll tempDir], r.fs.removeAll tempDir⟩

/-- The diagnostic of the validation guard. -/
def diagnostic : String :=
  "Required environment variables are missing or DATABASES list is empty\n"

/-- The `for _, dbName := range databases` loop of `main` (lines 50-58); `i` is
the position of the head of `dbs` in the configured list. -/
def mainLoop (g : Globals) (orc : Oracle) : Nat → List String → FS → List Event × FS
  | _, [], fs => ([], fs)
  | i, dbName :: rest, fs =>
    let o := orc.perDb i
    let fileName := generateBackupFileName dbName o.now
    let r := backupAndUploadDatabase g dbName fileName o fs
    let note :=
      match r.err with
      | some e =>
        sendDiscordNotification g
          ("Backup failed for database: " ++ dbName ++ " (file: " ++ fileName ++ ")")
          (some e) fileName o.post
      | none =>
        sendDiscordNotification g
          ("Backup successful for database: " ++ dbName ++ " (file: " ++ fileName ++ ")")
          none fileName o.post
    let (evs, fs2) := mainLoop g orc (i + 1) rest r.fs
    (r.events ++ note ++ evs, fs2)

/-- The validation guard of `main` (lines 33-34). -/
def missingRequired (g : Globals) : Prop :=
  g.bucketName = "" ∨ g.region = "" ∨ g.discordURL = "" ∨ g.databases.length = 0 ∨
    g.mysqlUser = "" ∨ g.mysqlPass = "" ∨ g.mysqlHost = "" ∨ g.mysqlPort = ""

instance (g : Globals) : Decidable (missingRequired g) := by
  unfold missingRequired
  infer_instance

/-- Source `main`: the effects of a run and the filesystem it leaves. -/
def main (env : Env) (orc : Oracle) (fs : FS) : List Event × FS :=
  let g := loadGlobals env
  if missingRequired g then
    ([Event.stdout diagnostic], fs)
  else
    let sess := [Event.newSession g.region]
    match orc.session with
    | some e =>
      (sess ++ sendDiscordNotification g "Failed to create AWS session" (some e) "" orc.sessionPost,
        fs)
    | none =>
      let (evs, fs2) := mainLoop g orc 0 g.databases fs
      (sess ++ evs, fs2)

/-! ## Observations on a run -/

/-- The post made by an effect, if it is one: endpoint and content. -/
def postOf : Event → Option (String × String)
  | Event.postForm url content => some (url, content)
  | _ => none

/-- The line printed by an effect, if it prints. -/
def printOf : Event → Option String
  | Event.stdout text => some text
  | _ => none

/-- The database for which an effect enters `backupAndUploadDatabase`, if it does. -/
def callOf : Event → Option String
  | Event.backupCall dbName _ => some dbName
  | _ => none

/-- The posts made to the webhook, in order. -/
def posts (evs : List Event) : List (String × String) := evs.filterMap postOf

/-- The lines printed, in order. -/
def printed (evs : List Event) : List String := evs.filterMap printOf

/-- The databases for which `backupAndUploadDatabase` was entered, in order. -/
def backupCalls (evs : List Event) : List String := evs.filterMap callOf

/-- The stages of a database pipeline. -/
inductive Stage where
  | tempDir
  | dump
  | write
  | upload
  deriving DecidableEq, Repr

/-- The stage an effect starts, if any. -/
def stageOf : Event → Option Stage
  | Event.tempDir _ _ => some Stage.tempDir
  | Event.runCmd _ _ => some Stage.dump
  | Event.writeFile _ _ _ => some Stage.write
  | Event.uploadCall _ _ => some Stage.upload
  | _ => none

/-- The stages started by a list of effects, in order. -/
def stages (evs : List Event) : List Stage := evs.filterMap stageOf

/-- Whether a step of the pipeline succeeded. -/
def Outcome.tempDirOk (o : Outcome) : Bool := o.tempDir.toBool
/-- Whether the dump succeeded. -/
def Outcome.dumpOk (o : Outcome) : Bool := o.dump.toBool
/-- Whether the file write succeeded. -/
def Outcome.writeOk (o : Outcome) : Bool := o.write = WriteResult.ok
/-- Whether the upload (open and put) succeeded. -/
def Outcome.uploadOk (o : Outcome) : Bool := o.openErr = none ∧ o.putErr = none

/-! ## Scenarios used as concrete inputs -/

/-- A reply of the webhook with status 204. -/
def reply204 : Except String Response := .ok ⟨204, "204 No Content"⟩

/-- An outcome in which every step succeeds, at 2024-01-01 12:00:00. -/
def okOutcome : Outcome where
  now := ⟨2024, 1, 1, 12, 0, 0⟩
  tempDir := .ok ["tmp", "backup1"]
  dump := .ok [1, 2, 3]
  write := WriteResult.ok
  openErr := none
  putErr := none
  post := reply204

/-- The outside world in which everything succeeds. -/
def okOracle : Oracle := ⟨none, reply204, fun _ => okOutcome⟩

/-- The empty filesystem. -/
def emptyFS : FS := fun _ => none

/-- A complete environment for the databases `orders` and `users`. -/
def sampleEnv : Env where
  DATABASES := "orders,users"
  S3_BUCKET := "bucket"
  S3_REGION := "eu-west-1"
  S3_PREFIX := ""
  DISCORD_URL := "https://discord.example/hook"
  MYSQL_USER := "root"
  MYSQL_PASSWORD := "secret"
  MYSQL_HOST := "localhost"
  MYSQL_PORT := "3306"

/-- The sample environment with an empty `DATABASES` value. -/
def emptyDatabasesEnv : Env := { sampleEnv with DATABASES := "" }

/-- The sample environment with an empty `MYSQL_HOST` value. -/
def noHostEnv : Env := { sampleEnv with MYSQL_HOST := "" }

/-- The error of the first failing stage of a database pipeline, with the
prefix of that stage. -/
def pipelineError (o : Outcome) : Option String :=
  match o.tempDir with
  | .error e => some (tempDirPrefix ++ e)
  | .ok _ =>
    match o.dump with
    | .error e => some (dumpPrefix ++ e)
    | .ok _ =>
      match o.write with
      | .fail e _ => some (writePrefix ++ e)
      | .ok =>
        match o.openErr with
        | some e => some (uploadPrefix ++ ("failed to open file: " ++ e))
        | none =>
          match o.putErr with
          | some e => some (uploadPrefix ++ ("failed to upload file to S3: " ++ e))
          | none => none

/-- The notification expected for the database `dbName` at position `i` of the list. -/
def expectedNotice (orc : Oracle) (i : Nat) (dbName : String) : String :=
  let fileName := generateBackupFileName dbName (orc.perDb i).now
  match pipelineError (orc.perDb i) with
  | some e => "Backup failed for database: " ++ dbName ++ " (file: " ++ fileName ++ ")" ++ ": " ++ e
  | none => "Backup successful for database: " ++ dbName ++ " (file: " ++ fileName ++ ")"

/-- An outcome whose dump fails with a non-zero exit status. -/
def dumpFailsOutcome : Outcome := { okOutcome with dump := .error "exit status 2" }

/-- The outside world in which the dump of the second database fails. -/
def secondFailsOracle : Oracle :=
  ⟨none, reply204, fun i => if i = 1 then dumpFailsOutcome else okOutcome⟩

/-- The outside world in which the dump of the first database fails. -/
def firstFailsOracle : Oracle :=
  ⟨none, reply204, fun i => if i = 0 then dumpFailsOutcome else okOutcome⟩

/-- A filesystem holding one file next to the temporary directories. -/
def neighbourFS : FS :=
  fun p => if p = ["tmp", "x-20240101-120000.sql"] then some (Node.file [9]) else none

/-! ## The timestamp as the specification words it -/

/-- The last `width` decimal digits of `u`, most significant first. -/
def decimal : Nat → Nat → List Char
  | 0, _ => []
  | width + 1, u => decimal width (u / 10) ++ [Nat.digitChar (u % 10)]

/-- The layout `YYYYMMDD-HHMMSS` written out digit by digit. -/
def stampYYYYMMDDHHMMSS (t : Time) : List Char :=
  [Nat.digitChar (t.year / 1000), Nat.digitChar (t.year / 100 % 10),
   Nat.digitChar (t.year / 10 % 10), Nat.digitChar (t.year % 10),
   Nat.digitChar (t.month / 10), Nat.digitChar (t.month % 10),
   Nat.digitChar (t.day / 10), Nat.digitChar (t.day % 10),
   '-',
   Nat.digitChar (t.hour / 10), Nat.digitChar (t.hour % 10),
   Nat.digitChar (t.minute / 10), Nat.digitChar (t.minute % 10),
   Nat.digitChar (t.second / 10), Nat.digitChar (t.second % 10)]

/-- A wall-clock time with a year in 0000-9999 and calendar-range fields. -/
def Time.inRange (t : Time) : Prop :=
  t.year ≤ 9999 ∧ 1 ≤ t.month ∧ t.month ≤ 12 ∧ 1 ≤ t.day ∧ t.day ≤ 31 ∧
    t.hour ≤ 23 ∧ t.minute ≤ 59 ∧ t.second ≤ 59

instance (t : Time) : Decidable t.inRange := by
  unfold Time.inRange
  infer_instance

/-! ## Lemmas on the string helpers -/

theorem splitAux_ne_nil (sep : Char) (cs cur : List Char) : splitAux sep cs cur ≠ [] := by
  induction cs generalizing cur with
  | nil => simp [splitAux]
  | cons c cs ih =>
    unfold splitAux
    split
    · simp
    · exact ih _

theorem stringsSplit_length_pos (s : String) (sep : Char) : 0 < (stringsSplit s sep).length :=
  List.length_pos.mpr (splitAux_ne_nil sep s.data [])

theorem trimSuffix_append_slash (q : String) : trimSuffix (q ++ "/") "/" = q := by
  have h : ("/" : String).data = [ '/' ] := rfl
  simp [trimSuffix, h, String.data_append]

theorem trimSuffix_no_slash (p : String) (h : ¬ ∃ q : String, p = q ++ "/") :
    trimSuffix p "/" = p := by
  have hs : ("/" : String).data = [ '/' ] := rfl
  unfold trimSuffix
  split
  · rename_i hsuf
    exfalso
    apply h
    rw [hs, List.isSuffixOf_iff_suffix] at hsuf
    obtain ⟨t, ht⟩ := hsuf
    refine ⟨String.mk t, ?_⟩
    apply String.ext
    simp [String.data_append, hs, ht]
  · rfl

/-! ## Lemmas on the timestamp -/

theorem padDigits_eq_decimal (width : Nat) :
    ∀ (fuel u : Nat) (acc : List Char), width ≤ fuel → u < 10 ^ width →
      padDigits fuel width u acc = decimal width u ++ acc := by
  induction width with
  | zero =>
    intro fuel u acc _ hu
    have hu0 : u = 0 := by simpa using hu
    subst hu0
    cases fuel <;> simp [padDigits, decimal]
  | succ w ih =>
    intro fuel u acc hf hu
    obtain ⟨f, rfl⟩ : ∃ f, fuel = f + 1 := ⟨fuel - 1, by omega⟩
    have hdiv : u / 10 < 10 ^ w := by
      rw [Nat.div_lt_iff_lt_mul (by decide)]
      simpa [pow_succ] using hu
    simp [padDigits, decimal, ih f (u / 10) _ (by omega) hdiv]

theorem appendInt_two (x : Nat) (h : x < 100) :
    appendInt x 2 = [Nat.digitChar (x / 10), Nat.digitChar (x % 10)] := by
  unfold appendInt
  have hw : max 2 1 = 2 := rfl
  rw [hw, padDigits_eq_decimal 2 _ _ _ (by omega) (by simpa using h)]
  have h10 : x / 10 % 10 = x / 10 := Nat.mod_eq_of_lt (by omega)
  simp [decimal, h10]

theorem appendInt_four (x : Nat) (h : x < 10000) :
    appendInt x 4 = [Nat.digitChar (x / 1000), Nat.digitChar (x / 100 % 10),
      Nat.digitChar (x / 10 % 10), Nat.digitChar (x % 10)] := by
  unfold appendInt
  have hw : max 4 1 = 4 := rfl
  rw [hw, padDigits_eq_decimal 4 _ _ _ (by omega) (by simpa using h)]
  have h1000 : x / 100 / 10 % 10 = x / 1000 := by omega
  have h100 : x / 10 / 10 = x / 100 := by omega
  simp only [decimal, List.nil_append, List.cons_append, h100, h1000]

theorem formatTimestamp_eq (t : Time) (h : t.inRange) :
    formatTimestamp t = String.mk (stampYYYYMMDDHHMMSS t) := by
  obtain ⟨hy, _, hmo, _, hd, hh, hmi, hs⟩ := h
  unfold formatTimestamp stampYYYYMMDDHHMMSS
  rw [appendInt_four _ (by omega), appendInt_two t.month (by omega), appendInt_two t.day (by omega),
    appendInt_two t.hour (by omega), appendInt_two t.minute (by omega),
    appendInt_two t.second (by omega)]
  rfl

theorem digitChar_isDigit : ∀ k, k < 10 → (Nat.digitChar k).isDigit = true := by decide

theorem statusFailureLine_ne_sentLine (status : String) : statusFailureLine status ≠ sentLine := by
  intro h
  have hd := congrArg (fun s : String => s.data.head?) h
  have h1 : ("Failed to send Discord notification, status: " : String).data =
      'F' :: ("ailed to send Discord notification, status: " : String).data := rfl
  have h2 : sentLine.data = 'D' :: ("iscord notification sent successfully.\n" : String).data := rfl
  simp [statusFailureLine, String.data_append, h1, h2] at hd

/-! ## The claims -/

/-- C1: in `uploadToS3` the object key is the file name when the prefix is empty, and
otherwise the prefix with one trailing "/" stripped, then "/", then the file name; the
prefixes "backups/" and "backups" both give "backups/orders-20240101-120000.sql". -/
theorem s3Key_contract (p f : String) :
    (p = "" → s3Key p f = f) ∧
    (p ≠ "" →
      (∀ q : String, p = q ++ "/" → s3Key p f = q ++ "/" ++ f) ∧
      ((¬ ∃ q : String, p = q ++ "/") → s3Key p f = p ++ "/" ++ f)) ∧
    s3Key "backups/" "orders-20240101-120000.sql" = "backups/orders-20240101-120000.sql" ∧
    s3Key "backups" "orders-20240101-120000.sql" = "backups/orders-20240101-120000.sql" := by
  refine ⟨fun h => by simp [s3Key, h], fun h => ⟨fun q hq => ?_, fun hq => ?_⟩, by decide, by decide⟩
  · subst hq
    simp [s3Key, h, trimSuffix_append_slash]
  · simp [s3Key, h, trimSuffix_no_slash p hq]

/-- Witness of C1: a non-empty prefix ending in "/" at a concrete input. -/
theorem s3Key_contract_witness : s3Key "a/b/" "x.sql" = "a/b" ++ "/" ++ "x.sql" :=
  ((s3Key_contract "a/b/" "x.sql").2.1 (by decide)).1 "a/b" (by decide)

/-- C8: at every time with a year in 0000-9999, `generateBackupFileName d` is
`d ++ "-" ++ ts ++ ".sql"` where `ts` is the time as YYYYMMDD-HHMMSS: 15 characters, eight
decimal digits, a hyphen, six decimal digits; "orders" at 2024-01-01 12:00:00 gives
"orders-20240101-120000.sql". -/
theorem generateBackupFileName_format (d : String) (t : Time) (h : t.inRange) :
    generateBackupFileName d t = d ++ "-" ++ formatTimestamp t ++ ".sql" ∧
    formatTimestamp t = String.mk (stampYYYYMMDDHHMMSS t) ∧
    (formatTimestamp t).data.length = 15 ∧
    ((formatTimestamp t).data.take 8).all Char.isDigit = true ∧
    (formatTimestamp t).data.get? 8 = some '-' ∧
    ((formatTimestamp t).data.drop 9).all Char.isDigit = true ∧
    generateBackupFileName "orders" ⟨2024, 1, 1, 12, 0, 0⟩ = "orders-20240101-120000.sql" := by
  have heq := formatTimestamp_eq t h
  obtain ⟨hy, _, hmo, _, hd, hh, hmi, hs⟩ := h
  refine ⟨rfl, heq, ?_, ?_, ?_, ?_, by decide⟩
  · rw [heq]; rfl
  · rw [heq]
    simp only [stampYYYYMMDDHHMMSS, List.take, List.all_cons, List.all_nil, Bool.and_true,
      Bool.and_eq_true]
    refine ⟨?_, ?_, ?_, ?_, ?_, ?_, ?_, ?_⟩ <;> apply digitChar_isDigit <;> omega
  · rw [heq]; rfl
  · rw [heq]
    simp only [stampYYYYMMDDHHMMSS, List.drop, List.all_cons, List.all_nil, Bool.and_true,
      Bool.and_eq_true]
    refine ⟨?_, ?_, ?_, ?_, ?_, ?_⟩ <;> apply digitChar_isDigit <;> omega

/-- Witness of C8: the file name of "users" on 1999-12-31 at 23:59:59. -/
theorem generateBackupFileName_format_witness :
    Time.inRange ⟨1999, 12, 31, 23, 59, 59⟩ ∧
    generateBackupFileName "users" ⟨1999, 12, 31, 23, 59, 59⟩ = "users-19991231-235959.sql" :=
  ⟨by decide,
    ((generateBackupFileName_format "users" ⟨1999, 12, 31, 23, 59, 59⟩ (by decide)).1).trans
      (by decide)⟩

/-- C9: the content posted by `sendDiscordNotification` in its one form field is the
message when there is no error and the message, ": " and the error text when there is
one; it does not depend on the file name. -/
theorem sendDiscordNotification_content (g : Globals) (m : String) (e : Option String)
    (f : String) (reply : Except String Response) :
    (e = none → posts (sendDiscordNotification g m e f reply) = [(g.discordURL, m)]) ∧
    (∀ d : String, e = some d →
      posts (sendDiscordNotification g m e f reply) = [(g.discordURL, m ++ ": " ++ d)]) ∧
    (∀ f2 : String, sendDiscordNotification g m e f2 reply = sendDiscordNotification g m e f reply) := by
  refine ⟨fun h => ?_, fun d h => ?_, fun _ => rfl⟩ <;> subst h <;>
    rcases reply with err | resp <;>
    simp only [sendDiscordNotification, notificationContent] <;>
    repeat' split
  all_goals simp [posts, postOf]

/-- Witness of C9: a failure notice carries the error text after ": ". -/
theorem sendDiscordNotification_content_witness :
    posts (sendDiscordNotification (loadGlobals sampleEnv) "Backup failed" (some "boom")
      "orders.sql" reply204) = [("https://discord.example/hook", "Backup failed: boom")] :=
  ((sendDiscordNotification_content (loadGlobals sampleEnv) "Backup failed" (some "boom")
    "orders.sql" reply204).2.1 "boom" rfl).trans (by decide)

/-- C10: for a webhook reply with status code `s`, `sendDiscordNotification` prints the
status failure line iff `s` is neither 200 nor 204 and the success line iff `s = 204`; in
every case, a transport failure included, it returns after exactly one post; status 500
prints "Failed to send Discord notification, status: ...". -/
theorem sendDiscordNotification_status (g : Globals) (m : String) (e : Option String)
    (f : String) (resp : Response) :
    (statusFailureLine resp.status ∈ printed (sendDiscordNotification g m e f (.ok resp)) ↔
      resp.statusCode ≠ 200 ∧ resp.statusCode ≠ 204) ∧
    (sentLine ∈ printed (sendDiscordNotification g m e f (.ok resp)) ↔ resp.statusCode = 204) ∧
    printed (sendDiscordNotification g m e f (.ok resp)) =
      (if resp.statusCode = 204 then [sentLine]
       else if resp.statusCode = 200 then [] else [statusFailureLine resp.status]) ∧
    (posts (sendDiscordNotification g m e f (.ok resp))).length = 1 ∧
    (∀ err : String,
      (posts (sendDiscordNotification g m e f (.error err))).length = 1 ∧
      printed (sendDiscordNotification g m e f (.error err)) = [transportFailureLine err]) ∧
    printed (sendDiscordNotification g m e f (.ok ⟨500, "500 Internal Server Error"⟩)) =
      ["Failed to send Discord notification, status: 500 Internal Server Error\n"] := by
  have hne := statusFailureLine_ne_sentLine resp.status
  refine ⟨?_, ?_, ?_, ?_, fun err => ⟨by simp [sendDiscordNotification, posts, postOf],
    by simp [sendDiscordNotification, printed, printOf]⟩, ?_⟩
  pick_goal 5
  · have hs : statusFailureLine "500 Internal Server Error" =
        "Failed to send Discord notification, status: 500 Internal Server Error\n" := by decide
    simp [sendDiscordNotification, printed, printOf, hs]
  all_goals
    simp only [sendDiscordNotification]
    by_cases h204 : resp.statusCode = 204
    · simp [h204, printed, posts, printOf, postOf, hne]
    · by_cases h200 : resp.statusCode = 200
      · simp [h200, printed, posts, printOf, postOf]
      · simp [h204, h200, printed, posts, printOf, postOf, hne.symm]

/-- C2 (evaluation at the failing input): with `DATABASES` empty and every other value
set, the derived list is `[""]`, the guard does not fire, and `main` creates the session,
runs `mysqldump` for the database named "", uploads and notifies. -/
theorem main_empty_DATABASES_runs :
    (loadGlobals emptyDatabasesEnv).databases = [""] ∧
    (main emptyDatabasesEnv okOracle emptyFS).1 =
      [Event.newSession "eu-west-1",
       Event.backupCall "" "-20240101-120000.sql",
       Event.tempDir "" "backup",
       Event.runCmd "mysqldump" ["-u", "root", "-psecret", "-h", "localhost", "-P", "3306", ""],
       Event.writeFile ["tmp", "backup1", "-20240101-120000.sql"] [1, 2, 3] 0o644,
       Event.uploadCall "-20240101-120000.sql" ["tmp", "backup1", "-20240101-120000.sql"],
       Event.openFile ["tmp", "backup1", "-20240101-120000.sql"],
       Event.putObject "bucket" "-20240101-120000.sql" (some [1, 2, 3]),
       Event.closeFile ["tmp", "backup1", "-20240101-120000.sql"],
       Event.removeAll ["tmp", "backup1"],
       Event.postForm "https://discord.example/hook"
         "Backup successful for database:  (file: -20240101-120000.sql)",
       Event.stdout "Discord notification sent successfully.\n",
       Event.closeBody] := by
  constructor <;> decide

/-- C3: when one of the seven required scalar values is empty, `main` only prints the
diagnostic (no session, dump, upload or post, filesystem untouched); when all seven are
set, `main` goes on to create the session whatever `S3_PREFIX` is, so an empty prefix
never causes the abort. -/
theorem main_missing_required (env : Env) (orc : Oracle) (fs : FS) :
    ((env.S3_BUCKET = "" ∨ env.S3_REGION = "" ∨ env.DISCORD_URL = "" ∨ env.MYSQL_USER = "" ∨
        env.MYSQL_PASSWORD = "" ∨ env.MYSQL_HOST = "" ∨ env.MYSQL_PORT = "") →
      main env orc fs = ([Event.stdout diagnostic], fs)) ∧
    ((env.S3_BUCKET ≠ "" ∧ env.S3_REGION ≠ "" ∧ env.DISCORD_URL ≠ "" ∧ env.MYSQL_USER ≠ "" ∧
        env.MYSQL_PASSWORD ≠ "" ∧ env.MYSQL_HOST ≠ "" ∧ env.MYSQL_PORT ≠ "") →
      ∃ rest, (main env orc fs).1 = Event.newSession env.S3_REGION :: rest) := by
  constructor
  · intro h
    have hg : missingRequired (loadGlobals env) := by
      simp only [missingRequired, loadGlobals]
      tauto
    simp only [main, if_pos hg]
  · rintro ⟨h1, h2, h3, h4, h5, h6, h7⟩
    have hlen : (stringsSplit env.DATABASES ',').length ≠ 0 :=
      Nat.pos_iff_ne_zero.mp (stringsSplit_length_pos _ _)
    have hg : ¬ missingRequired (loadGlobals env) := by
      simp only [missingRequired, loadGlobals]
      tauto
    simp only [main, if_neg hg]
    cases orc.session with
    | some e => exact ⟨_, rfl⟩
    | none => exact ⟨_, rfl⟩

/-- Witness of C3: an empty `MYSQL_HOST` aborts the run; an empty `S3_PREFIX` does not. -/
theorem main_missing_required_witness :
    main noHostEnv okOracle emptyFS = ([Event.stdout diagnostic], emptyFS) ∧
    sampleEnv.S3_PREFIX = "" ∧
    ∃ rest, (main sampleEnv okOracle emptyFS).1 = Event.newSession "eu-west-1" :: rest :=
  ⟨(main_missing_required noHostEnv okOracle emptyFS).1 (by decide), rfl,
    (main_missing_required sampleEnv okOracle emptyFS).2 (by decide)⟩

/-! ## Lemmas on the pipeline and the loop -/

theorem backupAndUploadDatabase_err (g : Globals) (dbName fileName : String) (o : Outcome)
    (fs : FS) : (backupAndUploadDatabase g dbName fileName o fs).err = pipelineError o := by
  obtain ⟨now, td, dump, write, openErr, putErr, post⟩ := o
  rcases td with e | dir <;> rcases dump with e2 | out <;> rcases write with _ | ⟨e3, res⟩ <;>
    rcases openErr with _ | e4 <;> rcases putErr with _ | e5 <;>
    simp [backupAndUploadDatabase, backupInTempDir, uploadToS3, pipelineError]

theorem backupAndUploadDatabase_posts (g : Globals) (dbName fileName : String) (o : Outcome)
    (fs : FS) : posts (backupAndUploadDatabase g dbName fileName o fs).events = [] := by
  obtain ⟨now, td, dump, write, openErr, putErr, post⟩ := o
  rcases td with e | dir <;> rcases dump with e2 | out <;> rcases write with _ | ⟨e3, res⟩ <;>
    rcases openErr with _ | e4 <;> rcases putErr with _ | e5 <;>
    simp [backupAndUploadDatabase, backupInTempDir, uploadToS3, posts, postOf]

theorem backupAndUploadDatabase_calls (g : Globals) (dbName fileName : String) (o : Outcome)
    (fs : FS) :
    backupCalls (backupAndUploadDatabase g dbName fileName o fs).events = [dbName] := by
  obtain ⟨now, td, dump, write, openErr, putErr, post⟩ := o
  rcases td with e | dir <;> rcases dump with e2 | out <;> rcases write with _ | ⟨e3, res⟩ <;>
    rcases openErr with _ | e4 <;> rcases putErr with _ | e5 <;>
    simp [backupAndUploadDatabase, backupInTempDir, uploadToS3, backupCalls, callOf]

theorem sendDiscordNotification_posts (g : Globals) (m : String) (e : Option String)
    (f : String) (reply : Except String Response) :
    posts (sendDiscordNotification g m e f reply) = [(g.discordURL, notificationContent m e)] := by
  rcases reply with err | resp <;> simp only [sendDiscordNotification] <;> repeat' split
  all_goals simp [posts, postOf]

theorem sendDiscordNotification_calls (g : Globals) (m : String) (e : Option String)
    (f : String) (reply : Except String Response) :
    backupCalls (sendDiscordNotification g m e f reply) = [] := by
  rcases reply with err | resp <;> simp only [sendDiscordNotification] <;> repeat' split
  all_goals simp [backupCalls, callOf]

theorem mainLoop_posts (g : Globals) (orc : Oracle) (dbs : List String) :
    ∀ (i : Nat) (fs : FS), posts (mainLoop g orc i dbs fs).1 =
      (dbs.enumFrom i).map (fun p => (g.discordURL, expectedNotice orc p.1 p.2)) := by
  induction dbs with
  | nil => intro i fs; simp [mainLoop, posts]
  | cons d rest ih =>
    intro i fs
    have hrest := ih (i + 1)
      (backupAndUploadDatabase g d (generateBackupFileName d (orc.perDb i).now) (orc.perDb i) fs).fs
    have hb := backupAndUploadDatabase_posts g d (generateBackupFileName d (orc.perDb i).now)
      (orc.perDb i) fs
    have he := backupAndUploadDatabase_err g d (generateBackupFileName d (orc.perDb i).now)
      (orc.perDb i) fs
    simp only [posts] at hrest hb ⊢
    simp only [mainLoop, List.filterMap_append, hb, hrest, List.enumFrom_cons, List.map_cons, he,
      List.nil_append]
    cases hp : pipelineError (orc.perDb i) <;>
      simp only [] <;>
      rw [show List.filterMap postOf (sendDiscordNotification g _ _ _ _) = _ from
        sendDiscordNotification_posts g _ _ _ _] <;>
      simp [expectedNotice, hp, notificationContent]

theorem mainLoop_calls (g : Globals) (orc : Oracle) (dbs : List String) :
    ∀ (i : Nat) (fs : FS), backupCalls (mainLoop g orc i dbs fs).1 = dbs := by
  induction dbs with
  | nil => intro i fs; simp [mainLoop, backupCalls]
  | cons d rest ih =>
    intro i fs
    have hrest := ih (i + 1)
      (backupAndUploadDatabase g d (generateBackupFileName d (orc.perDb i).now) (orc.perDb i) fs).fs
    have hb := backupAndUploadDatabase_calls g d (generateBackupFileName d (orc.perDb i).now)
      (orc.perDb i) fs
    simp only [backupCalls] at hrest hb ⊢
    simp only [mainLoop, List.filterMap_append, hb, hrest]
    cases (backupAndUploadDatabase g d (generateBackupFileName d (orc.perDb i).now)
      (orc.perDb i) fs).err <;>
      simp only [] <;>
      rw [show List.filterMap callOf (sendDiscordNotification g _ _ _ _) = _ from
        sendDiscordNotification_calls g _ _ _ _] <;>
      simp

/-- C4: when validation passes and the session is created, whatever the outcomes of
temp-dir creation, dump, write, upload and post are, `main` posts exactly one
notification per element of the database list, in list order, each naming its database,
and nothing else: there are as many posts as databases. -/
theorem main_notifies_each_database (env : Env) (orc : Oracle) (fs : FS)
    (hvalid : ¬ missingRequired (loadGlobals env)) (hsess : orc.session = none) :
    posts (main env orc fs).1 =
      (loadGlobals env).databases.enum.map
        (fun p => (env.DISCORD_URL, expectedNotice orc p.1 p.2)) ∧
    (posts (main env orc fs).1).length = (loadGlobals env).databases.length := by
  have h : posts (main env orc fs).1 =
      (loadGlobals env).databases.enum.map
        (fun p => (env.DISCORD_URL, expectedNotice orc p.1 p.2)) := by
    have hl := mainLoop_posts (loadGlobals env) orc (loadGlobals env).databases 0 fs
    simp only [main, if_neg hvalid, hsess]
    simp only [posts] at hl ⊢
    rw [List.filterMap_append, hl]
    simp [postOf, List.enum, loadGlobals]
  exact ⟨h, by rw [h]; simp⟩

/-- Witness of C4: two databases, the second dump failing, two notifications. -/
theorem main_notifies_each_database_witness :
    (posts (main sampleEnv secondFailsOracle emptyFS).1).length = 2 :=
  (main_notifies_each_database sampleEnv secondFailsOracle emptyFS (by decide) rfl).2

/-- C5: when validation passes and the session is created, `backupAndUploadDatabase` is
entered for the whole configured list in order, whatever fails; with DATABASES=orders,users
a failing dump of one database (second or first) gives one failure notice for it, with
the mysqldump prefix, and one success notice for the other. -/
theorem main_attempts_every_database (env : Env) (orc : Oracle) (fs : FS)
    (hvalid : ¬ missingRequired (loadGlobals env)) (hsess : orc.session = none) :
    backupCalls (main env orc fs).1 = (loadGlobals env).databases ∧
    posts (main sampleEnv secondFailsOracle emptyFS).1 =
      [("https://discord.example/hook",
        "Backup successful for database: orders (file: orders-20240101-120000.sql)"),
       ("https://discord.example/hook",
        "Backup failed for database: users (file: users-20240101-120000.sql): " ++
          "failed to execute mysqldump: exit status 2")] ∧
    posts (main sampleEnv firstFailsOracle emptyFS).1 =
      [("https://discord.example/hook",
        "Backup failed for database: orders (file: orders-20240101-120000.sql): " ++
          "failed to execute mysqldump: exit status 2"),
       ("https://discord.example/hook",
        "Backup successful for database: users (file: users-20240101-120000.sql)")] := by
  refine ⟨?_, by decide, by decide⟩
  have hl := mainLoop_calls (loadGlobals env) orc (loadGlobals env).databases 0 fs
  simp only [main, if_neg hvalid, hsess]
  simp only [backupCalls] at hl ⊢
  rw [List.filterMap_append, hl]
  simp [callOf]

/-- Witness of C5: both databases are attempted although the dump of the first fails. -/
theorem main_attempts_every_database_witness :
    backupCalls (main sampleEnv firstFailsOracle emptyFS).1 = ["orders", "users"] :=
  ((main_attempts_every_database sampleEnv firstFailsOracle emptyFS (by decide) rfl).1).trans
    (by decide)

/-- C6: in `backupAndUploadDatabase` the stages start in the order temp-dir, dump,
write, upload and stop at the first failure: the dump runs only after the temp dir was
created, the write only after the dump succeeded, the upload only after dump and write
succeeded; the result is nil iff all four succeed, and otherwise the error of the first
failing stage behind that stage's prefix; the four prefixes are pairwise distinct. -/
theorem backupAndUploadDatabase_stages (g : Globals) (dbName fileName : String) (o : Outcome)
    (fs : FS) :
    stages (backupAndUploadDatabase g dbName fileName o fs).events <+:
      [Stage.tempDir, Stage.dump, Stage.write, Stage.upload] ∧
    Stage.tempDir ∈ stages (backupAndUploadDatabase g dbName fileName o fs).events ∧
    (Stage.dump ∈ stages (backupAndUploadDatabase g dbName fileName o fs).events ↔
      o.tempDirOk = true) ∧
    (Stage.write ∈ stages (backupAndUploadDatabase g dbName fileName o fs).events ↔
      o.tempDirOk = true ∧ o.dumpOk = true) ∧
    (Stage.upload ∈ stages (backupAndUploadDatabase g dbName fileName o fs).events ↔
      o.tempDirOk = true ∧ o.dumpOk = true ∧ o.writeOk = true) ∧
    ((backupAndUploadDatabase g dbName fileName o fs).err = none ↔
      o.tempDirOk = true ∧ o.dumpOk = true ∧ o.writeOk = true ∧ o.uploadOk = true) ∧
    (∀ e, o.tempDir = .error e →
      (backupAndUploadDatabase g dbName fileName o fs).err = some (tempDirPrefix ++ e)) ∧
    (∀ e, o.tempDirOk = true → o.dump = .error e →
      (backupAndUploadDatabase g dbName fileName o fs).err = some (dumpPrefix ++ e)) ∧
    (∀ e residue, o.tempDirOk = true → o.dumpOk = true → o.write = .fail e residue →
      (backupAndUploadDatabase g dbName fileName o fs).err = some (writePrefix ++ e)) ∧
    (∀ dir fs1 e, o.tempDir = .ok dir → o.dumpOk = true → o.writeOk = true →
      (uploadToS3 g fileName (filepathJoin dir fileName) o fs1).1 = some e →
      (backupAndUploadDatabase g dbName fileName o fs).err = some (uploadPrefix ++ e)) ∧
    [tempDirPrefix, dumpPrefix, writePrefix, uploadPrefix].Pairwise (· ≠ ·) := by
  obtain ⟨now, td, dump, write, openErr, putErr, post⟩ := o
  refine ⟨?_, ?_, ?_, ?_, ?_, ?_, ?_, ?_, ?_, ?_, by decide⟩
  all_goals
    rcases td with e | dir <;> rcases dump with e2 | out <;> rcases write with _ | ⟨e3, res⟩ <;>
      rcases openErr with _ | e4 <;> rcases putErr with _ | e5 <;>
      simp [backupAndUploadDatabase, backupInTempDir, uploadToS3, stages, stageOf,
        Outcome.tempDirOk, Outcome.dumpOk, Outcome.writeOk, Outcome.uploadOk, Except.toBool]

/-- Witness of C6: a failing dump stops the pipeline after two stages. -/
theorem backupAndUploadDatabase_stages_witness :
    (backupAndUploadDatabase (loadGlobals sampleEnv) "users" "users.sql" dumpFailsOutcome
      emptyFS).err = some "failed to execute mysqldump: exit status 2" :=
  ((backupAndUploadDatabase_stages (loadGlobals sampleEnv) "users" "users.sql" dumpFailsOutcome
    emptyFS).2.2.2.2.2.2.2.1 "exit status 2" rfl rfl).trans (by decide)

/-! ## The temporary directory -/

theorem splitAux_no_sep (sep : Char) (cs : List Char) :
    ∀ cur : List Char, sep ∉ cs → splitAux sep cs cur = [String.mk (cur.reverse ++ cs)] := by
  induction cs with
  | nil => intro cur _; simp [splitAux]
  | cons c cs ih =>
    intro cur h
    have hc : c ≠ sep := fun hc => h (by simp [hc])
    have hcs : sep ∉ cs := fun hcs => h (by simp [hcs])
    simp [splitAux, hc, ih (c :: cur) hcs]

theorem digitChar_ne_slash : ∀ k, k < 10 → Nat.digitChar k ≠ '/' := by decide

theorem padDigits_no_slash :
    ∀ (fuel width u : Nat) (acc : List Char), '/' ∉ acc → '/' ∉ padDigits fuel width u acc := by
  intro fuel
  induction fuel with
  | zero => intro width u acc h; simpa [padDigits] using h
  | succ f ih =>
    intro width u acc h
    unfold padDigits
    split
    · exact h
    · apply ih
      simp only [List.mem_cons, not_or]
      exact ⟨fun hc => digitChar_ne_slash _ (Nat.mod_lt u (by decide)) hc.symm, h⟩

theorem formatTimestamp_no_slash (t : Time) : '/' ∉ (formatTimestamp t).data := by
  have hp : ∀ x w, '/' ∉ appendInt x w := fun x w => padDigits_no_slash _ _ _ [] (by simp)
  simp only [formatTimestamp, List.mem_append, not_or]
  refine ⟨⟨⟨⟨⟨⟨hp _ _, hp _ _⟩, hp _ _⟩, by decide⟩, hp _ _⟩, hp _ _⟩, hp _ _⟩

theorem filepathJoin_generated (dir : Path) (d : String) (t : Time) (hd : '/' ∉ d.data) :
    filepathJoin dir (generateBackupFileName d t) = dir ++ [generateBackupFileName d t] := by
  have hdash : ("-" : String).data = [ '-' ] := rfl
  have hsql : (".sql" : String).data = [ '.', 's', 'q', 'l' ] := rfl
  have hdata : (generateBackupFileName d t).data =
      d.data ++ [ '-' ] ++ (formatTimestamp t).data ++ [ '.', 's', 'q', 'l' ] := by
    simp [generateBackupFileName, String.data_append, hdash, hsql]
  have hno : '/' ∉ (generateBackupFileName d t).data := by
    rw [hdata]
    simp only [List.mem_append, not_or]
    exact ⟨⟨⟨hd, by decide⟩, formatTimestamp_no_slash t⟩, by decide⟩
  have hlen : 5 ≤ (generateBackupFileName d t).data.length := by
    rw [hdata]
    simp
    omega
  have hne : ∀ s : String, s.data.length < 5 → generateBackupFileName d t ≠ s := by
    intro s hs h
    rw [h] at hlen
    omega
  have hsplit : stringsSplit (generateBackupFileName d t) '/' = [generateBackupFileName d t] := by
    unfold stringsSplit
    rw [splitAux_no_sep _ _ [] hno]
    rfl
  simp [filepathJoin, hsplit, cleanStep, hne "" (by decide), hne "." (by decide),
    hne ".." (by decide)]

theorem isPrefixOf_append_self (dir rest : Path) : dir.isPrefixOf (dir ++ rest) = true := by
  rw [List.isPrefixOf_iff_prefix]
  exact List.prefix_append dir rest

theorem isPrefixOf_self (dir : Path) : dir.isPrefixOf dir = true := by
  rw [List.isPrefixOf_iff_prefix]

/-- For a database name without "/", the temporary directory and everything below it
are gone when `backupAndUploadDatabase` returns, and every other path is as before. -/
theorem backupAndUploadDatabase_cleanup (g : Globals) (d : String) (o : Outcome) (fs : FS)
    (dir : Path) (hd : '/' ∉ d.data) (htd : o.tempDir = .ok dir) (p : Path) :
    (backupAndUploadDatabase g d (generateBackupFileName d o.now) o fs).fs p =
      if dir.isPrefixOf p then none else fs p := by
  have hj := filepathJoin_generated dir d o.now hd
  obtain ⟨now, td, dump, write, openErr, putErr, post⟩ := o
  simp only at htd hj
  subst htd
  by_cases hp : dir.isPrefixOf p = true
  · simp [backupAndUploadDatabase, FS.removeAll, hp]
  · have h1 : p ≠ dir := fun h => hp (h ▸ isPrefixOf_self dir)
    have h2 : p ≠ dir ++ [generateBackupFileName d now] :=
      fun h => hp (h ▸ isPrefixOf_append_self dir _)
    rcases dump with e2 | out <;> rcases write with _ | ⟨e3, _ | part⟩ <;>
      rcases openErr with _ | e4 <;> rcases putErr with _ | e5 <;>
      simp [backupAndUploadDatabase, backupInTempDir, uploadToS3, FS.removeAll, FS.set, hp, hj,
        h1, h2]

/-- C7 (evaluation at the failing input): for the database "../x" the backup file is
written next to the temporary directory, not inside it: on return the temporary directory
is gone, but the backup file is still there, in place of a file that existed before. -/
theorem backupAndUploadDatabase_escapes_tempDir :
    generateBackupFileName "../x" okOutcome.now = "../x-20240101-120000.sql" ∧
    okOutcome.tempDir = .ok ["tmp", "backup1"] ∧
    filepathJoin ["tmp", "backup1"] "../x-20240101-120000.sql" =
      ["tmp", "x-20240101-120000.sql"] ∧
    (backupAndUploadDatabase (loadGlobals sampleEnv) "../x" "../x-20240101-120000.sql"
      okOutcome neighbourFS).err = none ∧
    (backupAndUploadDatabase (loadGlobals sampleEnv) "../x" "../x-20240101-120000.sql"
      okOutcome neighbourFS).fs ["tmp", "backup1"] = none ∧
    neighbourFS ["tmp", "x-20240101-120000.sql"] = some (Node.file [9]) ∧
    (backupAndUploadDatabase (loadGlobals sampleEnv) "../x" "../x-20240101-120000.sql"
      okOutcome neighbourFS).fs ["tmp", "x-20240101-120000.sql"] = some (Node.file [1, 2, 3]) := by
  refine ⟨by decide, rfl, by decide, by decide, by decide, by decide, by decide⟩

end GoDumpS3
